import Mathlib

/-!
Shallow embedding of the nipart state merge / diff / verify / revert engine
and its event-trigger evaluator, translated from the repository sources
(`src/daemon/event.rs`, `src/daemon/monitor/monitor_manager.rs`,
`src/lib/nmstate/trigger.rs`, `src/lib/state/revert/iface.rs`,
`src/lib/state/query_apply/inter_ifaces.rs`).

Machinery the repository uses from files not in scope (the generic JSON
value diff/merge/revert helpers, serde serialization of interfaces, and a
few interface predicates) is modelled from the specification where needed;
each such definition carries a doc comment starting `Modelled from the
spec:`.
-/

/-- Generic structural value, the shallow embedding of `serde_json::Value`
as used by the diff/merge/revert helpers.  Only the shapes produced by
serializing the interface model are needed: booleans, strings and
string-keyed maps. -/
inductive JVal where
  | bool (b : Bool)
  | str (s : String)
  | obj (fields : List (String × JVal))

/-- Structural equality on `JVal`, the embedding of `serde_json::Value`
equality. -/
def JVal.beq : JVal → JVal → Bool
  | .bool a, .bool b => a == b
  | .str a, .str b => a == b
  | .obj a, .obj b => beqFields a b
  | _, _ => false
where
  beqFields : List (String × JVal) → List (String × JVal) → Bool
  | [], [] => true
  | (k1, v1) :: r1, (k2, v2) :: r2 => k1 == k2 && beq v1 v2 && beqFields r1 r2
  | _, _ => false

instance : BEq JVal := ⟨JVal.beq⟩

/-- Key lookup in a serialized JSON map, the embedding of
`serde_json::Map::get`. -/
def jGet (fields : List (String × JVal)) (key : String) : Option JVal :=
  (fields.find? (fun p => p.1 == key)).map (·.2)

mutual
/-- Modelled from the spec: the generic structural-diff helper
`gen_diff_json_value` from `src/lib/state/json.rs` (not among the provided
sources).  Per §4.2: nested objects are diffed recursively and a value is
considered changed only if it differs; the result is `none` when nothing
differs. -/
def gen_diff_json_value : JVal → JVal → Option JVal
  | .obj dfs, .obj cfs =>
    let diffs := diffFields dfs cfs
    if diffs.isEmpty then none else some (.obj diffs)
  | d, c => if d == c then none else some d

/-- Modelled from the spec: per-key recursion of `gen_diff_json_value`;
keys absent from the current value are taken wholesale from the desired
value. -/
def diffFields : List (String × JVal) → List (String × JVal) → List (String × JVal)
  | [], _ => []
  | (k, dv) :: rest, cfs =>
    match jGet cfs k with
    | some cv =>
      match gen_diff_json_value dv cv with
      | some d => (k, d) :: diffFields rest cfs
      | none => diffFields rest cfs
    | none => (k, dv) :: diffFields rest cfs
end

mutual
/-- Modelled from the spec: the generic structural deep-merge helper
`merge_json_value` from `src/lib/state/json.rs` (not among the provided
sources).  Objects merge per key recursively, anything else is replaced by
the patch value. -/
def merge_json_value : JVal → JVal → JVal
  | .obj tfs, .obj pfs =>
    .obj (mergeFields tfs pfs ++ pfs.filter (fun p => (jGet tfs p.1).isNone))
  | _, p => p

/-- Modelled from the spec: per-key recursion of `merge_json_value`. -/
def mergeFields : List (String × JVal) → List (String × JVal) → List (String × JVal)
  | [], _ => []
  | (k, tv) :: rest, pfs =>
    (match jGet pfs k with
     | some pv => (k, merge_json_value tv pv)
     | none => (k, tv)) :: mergeFields rest pfs
end

/-- Modelled from the spec: the structural revert helper `gen_revert_state`
from `src/lib/state/json.rs` (not among the provided sources).  Per §4.4:
for every field that differs between the applied-desired value and the
pre-apply current value, the revert skeleton is given the current value;
fields the apply never touched are left alone. -/
def gen_revert_state (desired current revert : JVal) : JVal :=
  match desired, current with
  | .obj dfs, .obj cfs =>
    merge_json_value revert (.obj (dfs.filterMap fun p =>
      match jGet cfs p.1 with
      | some cv => if p.2 != cv then some (p.1, cv) else none
      | none => none))
  | d, c => if d == c then revert else c

/-- `InterfaceTriggerCarrier` from `src/lib/nmstate/trigger.rs`: a struct
with no (uncommented) fields. -/
structure InterfaceTriggerCarrier where
deriving DecidableEq, Repr

/-- `InterfaceTrigger` from `src/lib/nmstate/trigger.rs`. -/
inductive InterfaceTrigger where
  /-- Never bring interface up or down. -/
  | Never
  /-- Always bring interface up or down regardless its carrier state. -/
  | Always
  /-- Tie the interface's effective state to link-carrier presence. -/
  | Carrier (c : InterfaceTriggerCarrier)
  /-- Trigger the up/down action when the specified SSID connects. -/
  | WifiUp (ssid : String)
  /-- Trigger the up/down action when the specified SSID disconnects. -/
  | WifiDown (ssid : String)
  /-- Trigger the up/down action when an SSID other than the specified one
  connects. -/
  | WifiUpNot (ssid : String)
deriving DecidableEq, Repr

/-- `InterfaceTrigger::is_wifi` from `src/lib/nmstate/trigger.rs`. -/
def InterfaceTrigger.is_wifi : InterfaceTrigger → Bool
  | .WifiUp _ | .WifiDown _ | .WifiUpNot _ => true
  | _ => false

/-- Serialization of `InterfaceTriggerCarrier`: an empty struct serializes
as the empty JSON map. -/
def InterfaceTriggerCarrier.serialize (_c : InterfaceTriggerCarrier) : JVal :=
  .obj []

/-- Deserialization of `InterfaceTriggerCarrier` (`deny_unknown_fields`, no
declared fields): only the empty JSON map is accepted. -/
def InterfaceTriggerCarrier.deserialize : JVal → Except String InterfaceTriggerCarrier
  | .obj [] => .ok {}
  | _ => .error "invalid InterfaceTriggerCarrier"

/-- Deserialization of a plain string, the embedding of
`<String>::deserialize` as used by the trigger deserializer. -/
def deserializeString : JVal → Except String String
  | .str s => .ok s
  | _ => .error "expected a string"

/-- `impl Serialize for InterfaceTrigger` from `src/lib/nmstate/trigger.rs`. -/
def InterfaceTrigger.serialize : InterfaceTrigger → JVal
  | .Never => .str "never"
  | .Always => .str "always"
  | .Carrier v => .obj [("carrier", v.serialize)]
  | .WifiUp v => .obj [("wifi-up", .str v)]
  | .WifiDown v => .obj [("wifi-down", .str v)]
  | .WifiUpNot v => .obj [("wifi-up-not", .str v)]

/-- `impl Deserialize for InterfaceTrigger` from
`src/lib/nmstate/trigger.rs`: maps are probed for the keys `wifi-up`,
`wifi-up-not`, `wifi-down`, `carrier` in that order, strings must be
`never` or `always`, anything else is rejected. -/
def InterfaceTrigger.deserialize (v : JVal) : Except String InterfaceTrigger :=
  match v with
  | .obj fields =>
    match jGet fields "wifi-up" with
    | some v => (deserializeString v).map (fun s => .WifiUp s)
    | none =>
      match jGet fields "wifi-up-not" with
      | some v => (deserializeString v).map (fun s => .WifiUpNot s)
      | none =>
        match jGet fields "wifi-down" with
        | some v => (deserializeString v).map (fun s => .WifiDown s)
        | none =>
          match jGet fields "carrier" with
          | some v => (InterfaceTriggerCarrier.deserialize v).map (fun c => .Carrier c)
          | none =>
            .error ("Expecting trigger variant, but got " ++
              String.intercalate " " (fields.map (·.1)))
  | .str s =>
    match s with
    | "never" => .ok .Never
    | "always" => .ok .Always
    | v => .error ("Expecting trigger variant, but got " ++ v)
  | _ => .error "Expecting trigger variant, but got not string or map"

/-- `InterfaceState` base-field domain: `Up`, `Down`, `Absent` (spec §3). -/
inductive InterfaceState where
  | Up
  | Down
  | Absent
deriving DecidableEq, Repr

/-- The interface-type tags appearing in the sources (spec §3 variant
set, restricted to the tags the in-scope code distinguishes). -/
inductive InterfaceType where
  | Ethernet
  | Bridge
  | Bond
  | Vlan
  | Veth
  | Tun
  | WifiPhy
  | WifiCfg
  | OvsBridge
  | OvsInterface
  | Unknown
deriving DecidableEq, Repr

instance : BEq InterfaceType := instBEqOfDecidableEq

/-- Modelled from the spec: whether an interface type is virtual
(`is_virtual` is defined outside the provided sources).  Per §4.3 and the
§8 scenarios, virtual interfaces (bridges, bonds, vlans, veth, tun, OVS
entities, Wi-Fi profiles) must be fully removable, while real hardware
(Ethernet, Wi-Fi PHY) is not. -/
def InterfaceType.is_virtual : InterfaceType → Bool
  | .Ethernet | .WifiPhy | .Unknown => false
  | _ => true

/-- IPv4 configuration; only the enabled flag is relevant to the in-scope
code (`InterfaceIpv4::new_disabled`). -/
structure InterfaceIpv4 where
  enabled : Bool
deriving DecidableEq, Repr

/-- `InterfaceIpv4::new_disabled`: the disabled IPv4 configuration. -/
def InterfaceIpv4.new_disabled : InterfaceIpv4 := { enabled := false }

/-- IPv6 configuration; only the enabled flag is relevant to the in-scope
code (`InterfaceIpv6::new_disabled`). -/
structure InterfaceIpv6 where
  enabled : Bool
deriving DecidableEq, Repr

/-- `InterfaceIpv6::new_disabled`: the disabled IPv6 configuration. -/
def InterfaceIpv6.new_disabled : InterfaceIpv6 := { enabled := false }

/-- `BaseInterface`: the common base record every interface variant
carries (spec §3), restricted to the fields the in-scope code reads or
writes. -/
structure BaseInterface where
  name : String
  iface_type : InterfaceType
  state : InterfaceState
  mac_address : Option String := none
  ipv4 : Option InterfaceIpv4 := none
  ipv6 : Option InterfaceIpv6 := none
  up_trigger : Option InterfaceTrigger := none
  down_trigger : Option InterfaceTrigger := none
deriving DecidableEq, Repr

/-- `BaseInterface::new(name, iface_type)`: a fresh base record with
default (up, empty) remaining fields. -/
def BaseInterface.new (name : String) (iface_type : InterfaceType) : BaseInterface :=
  { name := name, iface_type := iface_type, state := .Up }

/-- The type-specific configuration of a `WifiCfg` profile: the SSID it
binds to and the optional parent PHY (`base_iface`). -/
structure WifiCfgConf where
  ssid : Option String := none
  base_iface : Option String := none
deriving DecidableEq, Repr

/-- A saved Wi-Fi profile interface (`Interface::WifiCfg`). -/
structure WifiCfgInterface where
  base : BaseInterface
  wifi : Option WifiCfgConf := none
deriving DecidableEq, Repr

/-- `WifiCfgInterface::ssid`: the SSID configured on the profile. -/
def WifiCfgInterface.ssid (i : WifiCfgInterface) : Option String :=
  i.wifi.bind (·.ssid)

/-- `WifiCfgInterface::parent`: the PHY the profile is bound to, when
fixed. -/
def WifiCfgInterface.parent (i : WifiCfgInterface) : Option String :=
  i.wifi.bind (·.base_iface)

/-- A physical Wi-Fi interface (`Interface::WifiPhy`); `ssid` is the SSID
currently associated, if any. -/
structure WifiPhyInterface where
  base : BaseInterface
  ssid : Option String := none
deriving DecidableEq, Repr

/-- An Ethernet interface (`Interface::Ethernet`); `sriov_enabled` embeds
`sriov_is_enabled()` used during verification. -/
structure EthernetInterface where
  base : BaseInterface
  sriov_enabled : Bool := false
deriving DecidableEq, Repr

/-- The polymorphic `Interface` sum (spec §3).  Variants the in-scope code
handles specially are explicit; every other variant is `generic`, carrying
only the base record (its tag lives in `base.iface_type`). -/
inductive Interface where
  | wifiCfg (i : WifiCfgInterface)
  | wifiPhy (i : WifiPhyInterface)
  | ethernet (i : EthernetInterface)
  | generic (base : BaseInterface)
deriving DecidableEq, Repr

instance : BEq Interface := instBEqOfDecidableEq

/-- `Interface::base_iface`: uniform access to the base record. -/
def Interface.base : Interface → BaseInterface
  | .wifiCfg i => i.base
  | .wifiPhy i => i.base
  | .ethernet i => i.base
  | .generic b => b

/-- Rebuild an interface with its base record transformed
(`base_iface_mut` updates in the sources). -/
def Interface.updBase (f : BaseInterface → BaseInterface) : Interface → Interface
  | .wifiCfg i => .wifiCfg { i with base := f i.base }
  | .wifiPhy i => .wifiPhy { i with base := f i.base }
  | .ethernet i => .ethernet { i with base := f i.base }
  | .generic b => .generic (f b)

/-- `Interface::name`. -/
def Interface.name (i : Interface) : String := i.base.name

/-- `Interface::iface_type`. -/
def Interface.iface_type (i : Interface) : InterfaceType := i.base.iface_type

/-- The interface's base state. -/
def Interface.state (i : Interface) : InterfaceState := i.base.state

/-- `Interface::is_absent`: the desired/observed state is `Absent`. -/
def Interface.is_absent (i : Interface) : Bool := i.state == .Absent

/-- `Interface::is_up`: the state is `Up`. -/
def Interface.is_up (i : Interface) : Bool := i.state == .Up

/-- `Interface::is_down`: the state is `Down`. -/
def Interface.is_down (i : Interface) : Bool := i.state == .Down

/-- `Interface::is_virtual`, delegated to the type tag. -/
def Interface.is_virtual (i : Interface) : Bool := i.iface_type.is_virtual

/-- `impl From<BaseInterface> for Interface` (`.into()` in the sources):
wrap a base record in the variant selected by its type tag. -/
def Interface.ofBase (b : BaseInterface) : Interface :=
  match b.iface_type with
  | .WifiCfg => .wifiCfg { base := b }
  | .WifiPhy => .wifiPhy { base := b }
  | .Ethernet => .ethernet { base := b }
  | _ => .generic b

/-- `Interface::clone_name_type_only`: a fresh record of the same variant
carrying only the identity (name and type) of the original. -/
def Interface.clone_name_type_only (i : Interface) : Interface :=
  Interface.ofBase (BaseInterface.new i.name i.iface_type)

/-- Serialized form of an `InterfaceState`. -/
def InterfaceState.serialize : InterfaceState → JVal
  | .Up => .str "up"
  | .Down => .str "down"
  | .Absent => .str "absent"

/-- Parse an `InterfaceState` back from its serialized form. -/
def InterfaceState.deserialize : JVal → Option InterfaceState
  | .str "up" => some .Up
  | .str "down" => some .Down
  | .str "absent" => some .Absent
  | _ => none

/-- Serialized (kebab-case) tag of an `InterfaceType`. -/
def InterfaceType.serialize : InterfaceType → JVal
  | .Ethernet => .str "ethernet"
  | .Bridge => .str "linux-bridge"
  | .Bond => .str "bond"
  | .Vlan => .str "vlan"
  | .Veth => .str "veth"
  | .Tun => .str "tun"
  | .WifiPhy => .str "wifi-phy"
  | .WifiCfg => .str "wifi-cfg"
  | .OvsBridge => .str "ovs-bridge"
  | .OvsInterface => .str "ovs-interface"
  | .Unknown => .str "unknown"

/-- Parse an `InterfaceType` back from its serialized tag. -/
def InterfaceType.deserialize : JVal → Option InterfaceType
  | .str "ethernet" => some .Ethernet
  | .str "linux-bridge" => some .Bridge
  | .str "bond" => some .Bond
  | .str "vlan" => some .Vlan
  | .str "veth" => some .Veth
  | .str "tun" => some .Tun
  | .str "wifi-phy" => some .WifiPhy
  | .str "wifi-cfg" => some .WifiCfg
  | .str "ovs-bridge" => some .OvsBridge
  | .str "ovs-interface" => some .OvsInterface
  | .str "unknown" => some .Unknown
  | _ => none

/-- Helper for optional serde fields: present fields contribute one key,
`none` fields are skipped (serde `skip_serializing_if` convention). -/
def optField (key : String) : Option JVal → List (String × JVal)
  | some v => [(key, v)]
  | none => []

/-- Serialize an IP sub-configuration. -/
def InterfaceIpv4.serialize (i : InterfaceIpv4) : JVal :=
  .obj [("enabled", .bool i.enabled)]

/-- Parse an IPv4 sub-configuration. -/
def InterfaceIpv4.deserialize : JVal → Option InterfaceIpv4
  | .obj fields =>
    match jGet fields "enabled" with
    | some (.bool b) => some { enabled := b }
    | _ => none
  | _ => none

/-- Serialize an IPv6 sub-configuration. -/
def InterfaceIpv6.serialize (i : InterfaceIpv6) : JVal :=
  .obj [("enabled", .bool i.enabled)]

/-- Parse an IPv6 sub-configuration. -/
def InterfaceIpv6.deserialize : JVal → Option InterfaceIpv6
  | .obj fields =>
    match jGet fields "enabled" with
    | some (.bool b) => some { enabled := b }
    | _ => none
  | _ => none

/-- Serialized fields of a `BaseInterface` (flattened into the interface
map, as serde does for the base record). -/
def BaseInterface.serialize (b : BaseInterface) : List (String × JVal) :=
  [("name", .str b.name),
   ("type", b.iface_type.serialize),
   ("state", b.state.serialize)]
  ++ optField "mac-address" (b.mac_address.map .str)
  ++ optField "ipv4" (b.ipv4.map InterfaceIpv4.serialize)
  ++ optField "ipv6" (b.ipv6.map InterfaceIpv6.serialize)
  ++ optField "up-trigger" (b.up_trigger.map InterfaceTrigger.serialize)
  ++ optField "down-trigger" (b.down_trigger.map InterfaceTrigger.serialize)

/-- Serialize the Wi-Fi profile sub-configuration. -/
def WifiCfgConf.serialize (c : WifiCfgConf) : JVal :=
  .obj (optField "ssid" (c.ssid.map .str)
    ++ optField "base-iface" (c.base_iface.map .str))

/-- Parse the Wi-Fi profile sub-configuration. -/
def WifiCfgConf.deserialize : JVal → Option WifiCfgConf
  | .obj fields =>
    let ssid := match jGet fields "ssid" with
      | some (.str s) => some s
      | _ => none
    let parent := match jGet fields "base-iface" with
      | some (.str s) => some s
      | _ => none
    some { ssid := ssid, base_iface := parent }
  | _ => none

/-- The embedding of `serde_json::to_value` on interfaces: base fields
flattened into one map plus the variant-specific fields. -/
def Interface.serialize : Interface → JVal
  | .wifiCfg i =>
    .obj (i.base.serialize ++ optField "wifi" (i.wifi.map WifiCfgConf.serialize))
  | .wifiPhy i =>
    .obj (i.base.serialize ++ optField "ssid" (i.ssid.map .str))
  | .ethernet i =>
    .obj (i.base.serialize ++ [("sriov-enabled", .bool i.sriov_enabled)])
  | .generic b => .obj b.serialize

/-- Parse an optional trigger field; an absent key yields `none`, a present
key must deserialize. -/
def parseTriggerField (fields : List (String × JVal)) (key : String) :
    Option (Option InterfaceTrigger) :=
  match jGet fields key with
  | none => some none
  | some v =>
    match InterfaceTrigger.deserialize v with
    | .ok t => some (some t)
    | .error _ => none

/-- Parse the flattened base record out of a serialized interface map. -/
def BaseInterface.deserialize (fields : List (String × JVal)) : Option BaseInterface :=
  match jGet fields "name" with
  | some (.str name) =>
    match (jGet fields "type").bind InterfaceType.deserialize with
    | some t =>
      match (jGet fields "state").bind InterfaceState.deserialize with
      | some st =>
        let mac := match jGet fields "mac-address" with
          | some (.str s) => some s
          | _ => none
        match jGet fields "ipv4" with
        | some v4j =>
          match InterfaceIpv4.deserialize v4j with
          | some v4 => go name t st mac (some v4) fields
          | none => none
        | none => go name t st mac none fields
      | none => none
    | none => none
  | _ => none
where
  go (name : String) (t : InterfaceType) (st : InterfaceState)
      (mac : Option String) (v4 : Option InterfaceIpv4)
      (fields : List (String × JVal)) : Option BaseInterface :=
    let v6 : Option (Option InterfaceIpv6) := match jGet fields "ipv6" with
      | some v6j => (InterfaceIpv6.deserialize v6j).map some
      | none => some none
    match v6 with
    | none => none
    | some v6 =>
      match parseTriggerField fields "up-trigger" with
      | none => none
      | some ut =>
        match parseTriggerField fields "down-trigger" with
        | none => none
        | some dt =>
          some { name := name, iface_type := t, state := st,
                 mac_address := mac, ipv4 := v4, ipv6 := v6,
                 up_trigger := ut, down_trigger := dt }

/-- The embedding of `serde_json::from_value::<Interface>`: rebuild the
variant selected by the `type` tag from a serialized map. -/
def Interface.deserialize : JVal → Option Interface
  | .obj fields =>
    match BaseInterface.deserialize fields with
    | none => none
    | some b =>
      match b.iface_type with
      | .WifiCfg =>
        match jGet fields "wifi" with
        | some wj =>
          match WifiCfgConf.deserialize wj with
          | some w => some (.wifiCfg { base := b, wifi := some w })
          | none => none
        | none => some (.wifiCfg { base := b, wifi := none })
      | .WifiPhy =>
        let ssid := match jGet fields "ssid" with
          | some (.str s) => some s
          | _ => none
        some (.wifiPhy { base := b, ssid := ssid })
      | .Ethernet =>
        let sriov := match jGet fields "sriov-enabled" with
          | some (.bool v) => v
          | _ => false
        some (.ethernet { base := b, sriov_enabled := sriov })
      | _ => some (.generic b)
  | _ => none

/-- The interface collection (spec §3 `Interfaces`), modelled as one
ordered list; the in-scope code only needs ordered iteration and
`(name, type)` lookup. -/
structure Interfaces where
  ifaces : List Interface := []
deriving DecidableEq, Repr

/-- `Interfaces::iter`. -/
def Interfaces.iter (s : Interfaces) : List Interface := s.ifaces

/-- `Interfaces::get_iface(name, iface_type)`: lookup by identity. -/
def Interfaces.get_iface (s : Interfaces) (name : String) (t : InterfaceType) :
    Option Interface :=
  s.ifaces.find? (fun i => i.name == name && i.iface_type == t)

/-- `Interfaces::push`. -/
def Interfaces.push (s : Interfaces) (i : Interface) : Interfaces :=
  { ifaces := s.ifaces ++ [i] }

/-- `NetworkState`, restricted to its interface collection (the only part
the in-scope code touches). -/
structure NetworkState where
  ifaces : Interfaces := {}
deriving DecidableEq, Repr

/-- Error kinds relevant to the core (spec §7). -/
inductive ErrorKind where
  | VerificationError
  | InvalidArgument
  | Bug
  | PluginFailure
deriving DecidableEq, Repr

/-- `NipartError`: an error kind plus human-readable message. -/
structure NipartError where
  kind : ErrorKind
  msg : String
deriving DecidableEq, Repr

/-- `NipartLinkEvent` from `src/daemon/event.rs` (the `SystemTime`
timestamp is dropped: it is never read by the evaluator). -/
structure NipartLinkEvent where
  iface_name : String
  iface_index : Nat
  iface_type : InterfaceType
  is_up : Bool
  ssid : Option String := none
deriving DecidableEq, Repr

/-- `is_trigger_matches` from `src/daemon/event.rs`: whether a trigger
fires for an event.  `Carrier` compares the saved identity with the event
identity; `WifiUp`/`WifiUpNot` compare the connected SSID; `WifiDown`
matches only when no currently observed Wi-Fi PHY reports the SSID.  (The
Rust `_ => false` arm guards the `non_exhaustive` enum and has no
counterpart over the closed Lean variant set.) -/
def is_trigger_matches (event : NipartLinkEvent) (trigger : InterfaceTrigger)
    (saved_iface : Interface) (cur_ifaces : Interfaces) : Bool :=
  match trigger with
  | .Never | .Always => false
  | .Carrier _ =>
    saved_iface.name == event.iface_name
      && saved_iface.iface_type == event.iface_type
  | .WifiUp ssid => event.is_up && event.ssid == some ssid
  | .WifiDown ssid =>
    (cur_ifaces.iter.filterMap (fun i =>
      match i with
      | .wifiPhy i => some i
      | _ => none)).all (fun i => i.ssid != some ssid)
  | .WifiUpNot ssid => event.is_up && event.ssid != some ssid

/-- `is_event_matches` from `src/daemon/event.rs`: a saved interface
reacts to an event when the Wi-Fi profile rule, the Wi-Fi PHY rule, or the
up/down trigger rule applies. -/
def is_event_matches (event : NipartLinkEvent) (saved_iface : Interface)
    (cur_ifaces : Interfaces) : Bool :=
  let wifiCfgRule : Bool :=
    match saved_iface with
    | .wifiCfg wifi_iface =>
      if event.iface_type == .WifiPhy then
        if event.is_up then
          event.ssid == wifi_iface.ssid
        else
          match wifi_iface.parent with
          | some parent => parent == event.iface_name
          | none => true
      else false
    | _ => false
  if wifiCfgRule then true
  else if saved_iface.iface_type == .WifiPhy
      && event.iface_type == .WifiPhy
      && event.iface_name == saved_iface.name then true
  else if event.is_up then
    match saved_iface.base.up_trigger with
    | some up_trigger => is_trigger_matches event up_trigger saved_iface cur_ifaces
    | none => false
  else
    match saved_iface.base.down_trigger with
    | some down_trigger => is_trigger_matches event down_trigger saved_iface cur_ifaces
    | none => false

/-- `wifi_cfg_to_wifi_phy` from `src/daemon/event.rs`: materialize a saved
Wi-Fi profile into a concrete PHY interface named after the event's PHY,
keeping the saved base record otherwise. -/
def wifi_cfg_to_wifi_phy (iface_name : String) (saved_iface : Interface) : Interface :=
  Interface.ofBase
    { saved_iface.base with name := iface_name, iface_type := .WifiPhy }

/-- Whether an optional trigger is a `Carrier` trigger (the
`matches!(..., Some(InterfaceTrigger::Carrier(_)))` tests in the
sources). -/
def isCarrierTrigger : Option InterfaceTrigger → Bool
  | some (.Carrier _) => true
  | _ => false

/-- The per-match delta computation from the body of `handle_link_event`
(`src/daemon/event.rs` lines 86–131): state is first forced `Up` and, on an
up-event, `up_trigger` cleared (with Wi-Fi profiles materialized to the
PHY); on a down-event the state is demoted to `Absent`/`Down` unless the
saved `up_trigger` is `Carrier` or the interface is a Wi-Fi profile, the
`down_trigger` is cleared, both IP stacks are disabled, and an unparented
Wi-Fi profile is rebound to the event's PHY. -/
def mkEventDelta (event : NipartLinkEvent) (iface : Interface) : Interface :=
  if event.is_up then
    let desired := iface.updBase (fun b => { b with state := .Up, up_trigger := none })
    if event.iface_type == .WifiPhy && iface.iface_type == .WifiCfg then
      wifi_cfg_to_wifi_phy event.iface_name iface
    else desired
  else
    let desired := iface.updBase (fun b => { b with state := .Up })
    let desired :=
      if !isCarrierTrigger iface.base.up_trigger && iface.iface_type != .WifiCfg then
        desired.updBase (fun b =>
          { b with state := if iface.is_virtual then .Absent else .Down })
      else desired
    let desired := desired.updBase (fun b =>
      { b with down_trigger := none,
               ipv4 := some InterfaceIpv4.new_disabled,
               ipv6 := some InterfaceIpv6.new_disabled })
    match iface, desired with
    | .wifiCfg saved_iface, .wifiCfg desired_cfg =>
      if saved_iface.parent.isNone then
        .wifiCfg { desired_cfg with
          wifi := saved_iface.wifi.map (fun w =>
            { w with base_iface := some event.iface_name }) }
      else desired
    | _, _ => desired

/-- The SSID backfill step of `handle_link_event`: a Wi-Fi PHY event with
no SSID takes the currently observed SSID of the same PHY. -/
def backfillSsid (event : NipartLinkEvent) (cur_ifaces : Interfaces) : NipartLinkEvent :=
  match cur_ifaces.get_iface event.iface_name event.iface_type with
  | some (.wifiPhy cur_wifi_iface) =>
    if event.ssid.isNone && event.iface_type == .WifiPhy then
      { event with ssid := cur_wifi_iface.ssid }
    else event
  | _ => event

/-- The interface-independent IP purge of `handle_link_event`: a down-event
for a Wi-Fi PHY always queues a delta keeping the PHY `Up` with both IP
stacks disabled. -/
def wifiPhyDownPurge (event : NipartLinkEvent) : List Interface :=
  if !event.is_up && event.iface_type == .WifiPhy then
    [Interface.ofBase
      { BaseInterface.new event.iface_name event.iface_type with
        state := .Up,
        ipv4 := some InterfaceIpv4.new_disabled,
        ipv6 := some InterfaceIpv6.new_disabled }]
  else []

/-- The pure core of `handle_link_event` (`src/daemon/event.rs`): the
desired-state delta computed from one link event, the saved state and the
currently observed interfaces (the surrounding state query/merge/apply
plumbing is outside the evaluator). -/
def computeEventDelta (event0 : NipartLinkEvent) (saved_ifaces : List Interface)
    (cur_ifaces : Interfaces) : List Interface :=
  let event := backfillSsid event0 cur_ifaces
  wifiPhyDownPurge event
    ++ saved_ifaces.filterMap (fun iface =>
        if is_event_matches event iface cur_ifaces then
          some (mkEventDelta event iface)
        else none)

/-- `MergedInterface` (spec §3): the per-identity reconciliation record. -/
structure MergedInterface where
  desired : Option Interface := none
  current : Option Interface := none
  for_apply : Option Interface := none
  for_verify : Option Interface := none
deriving DecidableEq, Repr

/-- `MergedInterface::is_desired`. -/
def MergedInterface.is_desired (m : MergedInterface) : Bool := m.desired.isSome

/-- `include_revert_context` on interfaces.  Modelled from the spec: the
context attached to computed records is diagnostics-only metadata
("used for downstream diagnostics, not for correctness", §4.2), so it is
the identity on the value model. -/
def Interface.include_revert_context (i _desired _current : Interface) : Interface := i

/-- `include_diff_context` on interfaces.  Modelled from the spec: same
diagnostics-only metadata as `include_revert_context`. -/
def Interface.include_diff_context (i _current : Interface) : Interface := i

/-- `Interface::generate_revert` from `src/lib/state/revert/iface.rs`:
an absent desired interface reverts to the full pre-apply current record;
otherwise a name/type skeleton of the current interface is filled with the
pre-apply values of every field the apply changed, and the result must
deserialize back into an interface record. -/
def Interface.generate_revert (self current : Interface) :
    Except NipartError Interface :=
  if self.is_absent then .ok current
  else
    let revert_value := (current.clone_name_type_only).serialize
    let desired_value := self.serialize
    let current_value := current.serialize
    let revert_value := gen_revert_state desired_value current_value revert_value
    match Interface.deserialize revert_value with
    | some revert_iface => .ok (revert_iface.include_revert_context self current)
    | none => .error { kind := .Bug, msg := "Failed to deserialize revert state" }

/-- `is_no_op` from `src/lib/state/revert/iface.rs`: the candidate revert
is a no-op when its serialized value equals the serialized applied desired
value.  (Serialization in the value model is total, so the Rust
serialization-failure fallback to `false` cannot arise.) -/
def is_no_op (revert_iface desired_iface : Interface) : Bool :=
  revert_iface.serialize == desired_iface.serialize

/-- `MergedInterface::generate_revert` from `src/lib/state/revert/iface.rs`:
nothing to revert without a for-apply view; without a prior current view
the revert is an absent record with the applied identity; otherwise the
computed candidate, suppressed when it is a no-op. -/
def MergedInterface.generate_revert (m : MergedInterface) :
    Except NipartError (Option Interface) :=
  match m.for_apply with
  | none => .ok none
  | some apply_iface =>
    match m.current with
    | some cur_iface =>
      match apply_iface.generate_revert cur_iface with
      | .ok revert_iface =>
        if !is_no_op revert_iface apply_iface then .ok (some revert_iface)
        else .ok none
      | .error e => .error e
    | none =>
      .ok (some ((apply_iface.clone_name_type_only).updBase
        (fun b => { b with state := .Absent })))

/-- The identity-plus-state skeleton built by `gen_diff`
(`clone_name_type_only` followed by copying the desired state). -/
def diffSkeleton (des_iface : Interface) : Interface :=
  (des_iface.clone_name_type_only).updBase
    (fun b => { b with state := des_iface.base.state })

/-- The per-interface body of `MergedInterfaces::gen_diff`
(`src/lib/state/query_apply/inter_ifaces.rs` lines 146–188), including the
`is_desired && desired != current` filter: skipped interfaces and
interfaces without a for-apply view yield no entry; an interface without a
prior current view yields the original desired interface verbatim;
otherwise the serialized for-apply view is diffed against the serialized,
sanitized current view and a non-empty diff is overlaid onto the
identity-plus-state skeleton (the sanitization of the current interface is
the pluggable policy parameter of spec §9). -/
def gen_diff_entry (sanitize : Interface → Interface) (m : MergedInterface) :
    Except NipartError (Option Interface) :=
  if m.is_desired = true ∧ m.desired ≠ m.current then
    match m.for_apply with
    | none => .ok none
    | some des_iface =>
      match m.current with
      | none =>
        match m.desired with
        | some origin_des_iface => .ok (some origin_des_iface)
        | none => .ok (some des_iface)
      | some cur0 =>
        let cur_iface := sanitize cur0
        let desired_value := des_iface.serialize
        let current_value := cur_iface.serialize
        match gen_diff_json_value desired_value current_value with
        | none => .ok none
        | some diff_value =>
          let new_iface_value := merge_json_value (diffSkeleton des_iface).serialize diff_value
          match Interface.deserialize new_iface_value with
          | some new_iface => .ok (some (new_iface.include_diff_context cur_iface))
          | none => .error { kind := .InvalidArgument,
                             msg := "Failed to deserialize diff interface" }
  else .ok none

/-- `MergedInterfaces` (spec §3), restricted to the merged per-interface
records (OVS patch-port policy and the ignored list feed the verify
pre-processing, which is outside the per-interface logic embedded here). -/
structure MergedInterfaces where
  ifaces : List MergedInterface := []
deriving DecidableEq, Repr

/-- The entry-collecting loop of `MergedInterfaces::gen_diff`: the first
error aborts, `none` entries are dropped. -/
def gen_diff_list (sanitize : Interface → Interface) :
    List MergedInterface → Except NipartError (List Interface)
  | [] => .ok []
  | m :: rest =>
    match gen_diff_entry sanitize m with
    | .error e => .error e
    | .ok none => gen_diff_list sanitize rest
    | .ok (some i) =>
      match gen_diff_list sanitize rest with
      | .error e => .error e
      | .ok l => .ok (i :: l)

/-- `MergedInterfaces::gen_diff` over the merged collection. -/
def MergedInterfaces.gen_diff (sanitize : Interface → Interface)
    (s : MergedInterfaces) : Except NipartError (List Interface) :=
  gen_diff_list sanitize s.ifaces

/-- `verify_desire_absent_but_found_in_current` from
`src/lib/state/query_apply/inter_ifaces.rs`: a virtual interface still
present after an absent/down request is a verification failure naming the
desired interface; hardware is tolerated. -/
def verify_desire_absent_but_found_in_current (des_iface cur_iface : Interface) :
    Except NipartError Unit :=
  if cur_iface.is_virtual then
    .error { kind := .VerificationError,
             msg := "Absent/Down interface " ++ des_iface.name
               ++ " still found in current state" }
  else .ok ()

/-- The per-desired-interface body of `MergedInterfaces::verify`
(`src/lib/state/query_apply/inter_ifaces.rs` lines 219–255), applied to a
sanitized for-verify view against the sanitized observed snapshot.  The
field-level comparison `Interface::verify` and the SR-IOV sub-interface
check `verify_sriov` live outside the provided sources and are pluggable
parameters (spec §9 treats the per-backend comparison rules as policy). -/
def verify_iface_step
    (fieldVerify : Interface → Interface → Except NipartError Unit)
    (sriovVerify : EthernetInterface → Interfaces → Except NipartError Unit)
    (current : Interfaces) (iface : Interface) : Except NipartError Unit :=
  if iface.is_absent || (iface.is_virtual && iface.is_down) then
    match current.get_iface iface.name iface.iface_type with
    | some cur_iface => verify_desire_absent_but_found_in_current iface cur_iface
    | none => .ok ()
  else
    match current.get_iface iface.name iface.iface_type with
    | some cur_iface =>
      if iface.is_up then
        match fieldVerify iface cur_iface with
        | .error e => .error e
        | .ok () =>
          match iface with
          | .ethernet eth_iface =>
            if eth_iface.sriov_enabled then sriovVerify eth_iface current
            else .ok ()
          | _ => .ok ()
      else .ok ()
    | none =>
      if iface.is_up then
        .error { kind := .VerificationError,
                 msg := "Failed to find desired interface " ++ iface.name }
      else .ok ()

/-- The per-interface test of `wifi_monitor_is_needed`
(`src/daemon/monitor/monitor_manager.rs`): a Wi-Fi profile with a concrete
SSID, or any interface carrying a Wi-Fi up/down trigger. -/
def wifi_iface_needs_monitor (iface : Interface) : Bool :=
  (match iface with
   | .wifiCfg wifi_iface => wifi_iface.ssid.isSome
   | _ => false)
  || (match iface.base.up_trigger with
      | some up_trigger => up_trigger.is_wifi
      | none => false)
  || (match iface.base.down_trigger with
      | some down_trigger => down_trigger.is_wifi
      | none => false)

/-- `wifi_monitor_is_needed` from `src/daemon/monitor/monitor_manager.rs`:
scan over the saved state, restricted to non-absent interfaces. -/
def wifi_monitor_is_needed (full_saved_state : NetworkState) : Bool :=
  full_saved_state.ifaces.iter.any (fun iface =>
    !iface.is_absent && wifi_iface_needs_monitor iface)

/-- The base record of a variant-wrapped base is that base. -/
theorem Interface.base_ofBase (b : BaseInterface) : (Interface.ofBase b).base = b := by
  unfold Interface.ofBase
  cases b.iface_type <;> rfl

/-- The base record of an updated interface is the updated base record. -/
theorem Interface.base_updBase (f : BaseInterface → BaseInterface) (i : Interface) :
    (i.updBase f).base = f i.base := by
  cases i <;> rfl

/-- SSID backfill does not change the event's direction. -/
theorem backfillSsid_is_up (event : NipartLinkEvent) (cur : Interfaces) :
    (backfillSsid event cur).is_up = event.is_up := by
  unfold backfillSsid
  split
  · split <;> rfl
  · rfl

/-- SSID backfill does not change the event's interface type. -/
theorem backfillSsid_iface_type (event : NipartLinkEvent) (cur : Interfaces) :
    (backfillSsid event cur).iface_type = event.iface_type := by
  unfold backfillSsid
  split
  · split <;> rfl
  · rfl

/-- C10: For every `InterfaceTrigger` value (`Never`, `Always`, `Carrier`,
`WifiUp`, `WifiDown`, `WifiUpNot`), deserializing its serialized form
succeeds and yields a value equal to the original (serde round-trip
identity). -/
theorem interface_trigger_serde_roundtrip (t : InterfaceTrigger) :
    InterfaceTrigger.deserialize t.serialize = .ok t := by
  cases t with
  | Never => rfl
  | Always => rfl
  | Carrier c => cases c; rfl
  | WifiUp s => rfl
  | WifiDown s => rfl
  | WifiUpNot s => rfl

/-- An observed Wi-Fi PHY currently associated to the SSID `home`. -/
def phyAssociatedHome : Interface :=
  .wifiPhy { base := BaseInterface.new "wlan0" .WifiPhy, ssid := some "home" }

/-- A second observed Wi-Fi PHY with no association. -/
def phyUnassociated : Interface :=
  .wifiPhy { base := BaseInterface.new "wlan1" .WifiPhy, ssid := none }

/-- Observed snapshot with two Wi-Fi PHYs, one still associated to
`home`. -/
def twoPhySnapshot : Interfaces := { ifaces := [phyAssociatedHome, phyUnassociated] }

/-- A saved interface used as the trigger carrier in concrete scenarios. -/
def genericSavedIface : Interface :=
  .generic { BaseInterface.new "eth9" .Ethernet with
    down_trigger := some (.WifiDown "home") }

/-- A Wi-Fi PHY down-event for `wlan0`. -/
def wlan0DownEvent : NipartLinkEvent :=
  { iface_name := "wlan0", iface_index := 7, iface_type := .WifiPhy, is_up := false }

/-- C6: A `WifiDown(ssid)` trigger matches an event if and only if no
`WifiPhy` interface in the currently observed collection reports that SSID
as associated; in particular, with two observed PHYs of which one is still
associated to the SSID, the trigger does not match. -/
theorem wifi_down_matches_iff_no_phy_associated :
    (∀ (event : NipartLinkEvent) (ssid : String) (saved_iface : Interface)
      (cur_ifaces : Interfaces),
      (is_trigger_matches event (.WifiDown ssid) saved_iface cur_ifaces = true ↔
        ∀ w : WifiPhyInterface, Interface.wifiPhy w ∈ cur_ifaces.iter →
          w.ssid ≠ some ssid))
    ∧ is_trigger_matches wlan0DownEvent (.WifiDown "home") genericSavedIface
        twoPhySnapshot = false := by
  constructor
  · intro event ssid saved_iface cur_ifaces
    simp only [is_trigger_matches, List.all_eq_true, List.mem_filterMap]
    constructor
    · intro h w hw
      have := h w ⟨Interface.wifiPhy w, hw, rfl⟩
      simpa [bne_iff_ne] using this
    · rintro h w ⟨i, hi, hmatch⟩
      cases i with
      | wifiPhy v =>
        simp only [Option.some.injEq] at hmatch
        subst hmatch
        simpa [bne_iff_ne] using h v hi
      | wifiCfg v => simp at hmatch
      | ethernet v => simp at hmatch
      | generic v => simp at hmatch
  · decide

/-- The per-interface condition of the C9 claim, written out: a Wi-Fi
profile with an SSID set, or a Wi-Fi up/down trigger. -/
theorem wifi_iface_needs_monitor_iff (iface : Interface) :
    wifi_iface_needs_monitor iface = true ↔
      ((∃ w, iface = .wifiCfg w ∧ w.ssid.isSome)
        ∨ (∃ t, iface.base.up_trigger = some t ∧ t.is_wifi)
        ∨ (∃ t, iface.base.down_trigger = some t ∧ t.is_wifi)) := by
  unfold wifi_iface_needs_monitor
  simp only [Bool.or_eq_true]
  constructor
  · rintro ((h | h) | h)
    · left
      cases iface with
      | wifiCfg w => exact ⟨w, rfl, h⟩
      | wifiPhy w => simp at h
      | ethernet w => simp at h
      | generic b => simp at h
    · right; left
      cases ht : iface.base.up_trigger with
      | none => rw [ht] at h; simp at h
      | some t => rw [ht] at h; exact ⟨t, rfl, h⟩
    · right; right
      cases ht : iface.base.down_trigger with
      | none => rw [ht] at h; simp at h
      | some t => rw [ht] at h; exact ⟨t, rfl, h⟩
  · rintro (⟨w, hw, h⟩ | ⟨t, ht, h⟩ | ⟨t, ht, h⟩)
    · subst hw; exact Or.inl (Or.inl h)
    · rw [ht]; exact Or.inl (Or.inr h)
    · rw [ht]; exact Or.inr h

/-- A saved Wi-Fi profile with a set SSID but in `Absent` state. -/
def absentHomeProfile : Interface :=
  .wifiCfg { base := { BaseInterface.new "home-wifi" .WifiCfg with state := .Absent },
             wifi := some { ssid := some "home" } }

/-- A saved state containing only the absent Wi-Fi profile. -/
def savedAbsentProfileState : NetworkState :=
  { ifaces := { ifaces := [absentHomeProfile] } }

/-- C9 counterexample: a saved state whose only interface is a `WifiCfg`
with an SSID set — satisfying the claim's condition — for which
`wifi_monitor_is_needed` nevertheless returns `false`, because the
interface is absent and the scan skips absent interfaces. -/
theorem wifi_monitor_ignores_absent_counterexample :
    wifi_monitor_is_needed savedAbsentProfileState = false
    ∧ absentHomeProfile ∈ savedAbsentProfileState.ifaces.iter
    ∧ (∃ w, absentHomeProfile = .wifiCfg w ∧ w.ssid.isSome) := by
  refine ⟨by decide, by decide, ⟨_, rfl, by decide⟩⟩

/-- C9 as amended: `wifi_monitor_is_needed` returns `true` if and only if
some **non-absent** saved interface is a `WifiCfg` with an SSID set, or
carries an up or down trigger that is one of `WifiUp`, `WifiDown`,
`WifiUpNot`. -/
theorem wifi_monitor_is_needed_iff (full_saved_state : NetworkState) :
    wifi_monitor_is_needed full_saved_state = true ↔
      ∃ iface ∈ full_saved_state.ifaces.iter,
        iface.is_absent = false ∧
        ((∃ w, iface = .wifiCfg w ∧ w.ssid.isSome)
          ∨ (∃ t, iface.base.up_trigger = some t ∧ t.is_wifi)
          ∨ (∃ t, iface.base.down_trigger = some t ∧ t.is_wifi)) := by
  unfold wifi_monitor_is_needed
  simp only [List.any_eq_true, Bool.and_eq_true, Bool.not_eq_true']
  constructor
  · rintro ⟨iface, hin, habs, hneed⟩
    exact ⟨iface, hin, habs, (wifi_iface_needs_monitor_iff iface).mp hneed⟩
  · rintro ⟨iface, hin, habs, hneed⟩
    exact ⟨iface, hin, habs, (wifi_iface_needs_monitor_iff iface).mpr hneed⟩

/-- Saved interface `eth0`, desired Up, with `down_trigger = Carrier` and
no up-trigger (the spec's §8 Carrier scenario). -/
def savedEth0 : Interface :=
  .ethernet { base := { BaseInterface.new "eth0" .Ethernet with
    down_trigger := some (.Carrier {}) } }

/-- Down-event for `eth0`. -/
def eth0DownEvent : NipartLinkEvent :=
  { iface_name := "eth0", iface_index := 2, iface_type := .Ethernet, is_up := false }

/-- The delta the evaluator actually emits for the Carrier scenario. -/
def eth0DownDelta : Interface :=
  .ethernet { base := { BaseInterface.new "eth0" .Ethernet with
    state := .Down,
    ipv4 := some InterfaceIpv4.new_disabled,
    ipv6 := some InterfaceIpv6.new_disabled } }

/-- C1 (code bug): interface `eth0` is saved Up with
`down_trigger = Carrier` and is matched by the `eth0` down-event, yet the
emitted delta has state `Down`, not `Up` — the evaluator consults the
**up**-trigger (`src/daemon/event.rs` line 100) when deciding whether to
keep the state Up, contradicting the `Carrier` documentation in
`src/lib/nmstate/trigger.rs` ("when carrier down ... interface state will
not changed to down state, only have IP stack disabled") and the spec.
The `down_trigger` is cleared and both IP stacks are disabled as the
claim states; only the Up state is violated. -/
theorem carrier_down_event_delta_demotes_state :
    savedEth0.base.down_trigger = some (.Carrier {})
    ∧ is_event_matches eth0DownEvent savedEth0 { ifaces := [savedEth0] } = true
    ∧ computeEventDelta eth0DownEvent [savedEth0] { ifaces := [savedEth0] }
        = [eth0DownDelta]
    ∧ eth0DownDelta.state = .Down
    ∧ eth0DownDelta.state ≠ .Up
    ∧ eth0DownDelta.base.down_trigger = none
    ∧ eth0DownDelta.base.ipv4 = some InterfaceIpv4.new_disabled
    ∧ eth0DownDelta.base.ipv6 = some InterfaceIpv6.new_disabled := by
  refine ⟨rfl, by decide, by decide, rfl, by decide, rfl, rfl, rfl⟩

/-- Saved unparented Wi-Fi profile for SSID `home`, carrying a
`WifiUp home` up-trigger. -/
def savedHomeProfile : Interface :=
  .wifiCfg { base := { BaseInterface.new "home-wifi" .WifiCfg with
                       up_trigger := some (.WifiUp "home") },
             wifi := some { ssid := some "home" } }

/-- Up-event: PHY `wlan0` associated to SSID `home`. -/
def wlan0UpHomeEvent : NipartLinkEvent :=
  { iface_name := "wlan0", iface_index := 7, iface_type := .WifiPhy, is_up := true,
    ssid := some "home" }

/-- The delta actually emitted for the profile: the materialized `WifiPhy`
record still carrying the saved up-trigger. -/
def materializedWlan0Delta : Interface :=
  .wifiPhy { base := { BaseInterface.new "wlan0" .WifiPhy with
    up_trigger := some (.WifiUp "home") } }

/-- C5 counterexample: the saved Wi-Fi profile is matched by the up-event,
but the delta the evaluator emits — the profile materialized into a
`WifiPhy` via `wifi_cfg_to_wifi_phy` — retains `up_trigger = WifiUp home`
instead of having it cleared to `None`: the materialization clones the
saved base record after the clearing step and thereby discards it. -/
theorem up_trigger_retained_on_materialization :
    is_event_matches wlan0UpHomeEvent savedHomeProfile { ifaces := [] } = true
    ∧ computeEventDelta wlan0UpHomeEvent [savedHomeProfile] { ifaces := [] }
        = [materializedWlan0Delta]
    ∧ materializedWlan0Delta.base.up_trigger = some (.WifiUp "home")
    ∧ materializedWlan0Delta.base.up_trigger ≠ none := by
  refine ⟨by decide, by decide, rfl, by decide⟩

/-- `computeEventDelta` with its let-binding unfolded. -/
theorem computeEventDelta_def (event0 : NipartLinkEvent)
    (saved_ifaces : List Interface) (cur_ifaces : Interfaces) :
    computeEventDelta event0 saved_ifaces cur_ifaces =
      wifiPhyDownPurge (backfillSsid event0 cur_ifaces)
        ++ saved_ifaces.filterMap (fun iface =>
            if is_event_matches (backfillSsid event0 cur_ifaces) iface cur_ifaces
            then some (mkEventDelta (backfillSsid event0 cur_ifaces) iface)
            else none) := rfl

/-- C5 as amended: every delta emitted for an up-event comes from a
matched saved interface and has its `up_trigger` cleared to `None`,
**except** when the event is a Wi-Fi PHY event and the saved interface is
a Wi-Fi profile: the materialized `WifiPhy` delta then carries the saved
base record's `up_trigger` unchanged. -/
theorem up_event_delta_up_trigger (event : NipartLinkEvent)
    (saved_ifaces : List Interface) (cur_ifaces : Interfaces) (d : Interface)
    (h1 : event.is_up = true)
    (hd : d ∈ computeEventDelta event saved_ifaces cur_ifaces) :
    ∃ iface ∈ saved_ifaces,
      is_event_matches (backfillSsid event cur_ifaces) iface cur_ifaces = true
      ∧ d = mkEventDelta (backfillSsid event cur_ifaces) iface
      ∧ d.base.up_trigger =
          (if event.iface_type == .WifiPhy && iface.iface_type == .WifiCfg
           then iface.base.up_trigger else none) := by
  rw [computeEventDelta_def] at hd
  rw [show wifiPhyDownPurge (backfillSsid event cur_ifaces) = [] by
    unfold wifiPhyDownPurge
    rw [backfillSsid_is_up, h1]
    rfl] at hd
  simp only [List.nil_append, List.mem_filterMap] at hd
  obtain ⟨iface, hin, hif⟩ := hd
  by_cases hm : is_event_matches (backfillSsid event cur_ifaces) iface cur_ifaces = true
  · rw [if_pos hm] at hif
    obtain rfl : mkEventDelta (backfillSsid event cur_ifaces) iface = d :=
      Option.some.inj hif
    refine ⟨iface, hin, hm, rfl, ?_⟩
    unfold mkEventDelta
    rw [backfillSsid_is_up, h1, backfillSsid_iface_type]
    simp only [if_true]
    by_cases hc : (event.iface_type == InterfaceType.WifiPhy
        && iface.iface_type == InterfaceType.WifiCfg) = true
    · rw [if_pos hc, if_pos hc]
      unfold wifi_cfg_to_wifi_phy
      rw [Interface.base_ofBase]
    · rw [if_neg hc, if_neg hc, Interface.base_updBase]
  · rw [if_neg hm] at hif
    exact absurd hif (by simp)

/-- C5 witness: the amended statement applied to the concrete materialized
scenario. -/
theorem up_event_delta_up_trigger_witness :
    ∃ iface ∈ [savedHomeProfile],
      is_event_matches (backfillSsid wlan0UpHomeEvent { ifaces := [] })
          iface { ifaces := [] } = true
      ∧ materializedWlan0Delta =
          mkEventDelta (backfillSsid wlan0UpHomeEvent { ifaces := [] }) iface
      ∧ materializedWlan0Delta.base.up_trigger =
          (if wlan0UpHomeEvent.iface_type == .WifiPhy
              && iface.iface_type == .WifiCfg
           then iface.base.up_trigger else none) :=
  up_event_delta_up_trigger wlan0UpHomeEvent [savedHomeProfile] { ifaces := [] }
    materializedWlan0Delta (by decide) (by decide)

/-- In the absent-or-virtual-down branch with the interface still found,
the verify step reduces to `verify_desire_absent_but_found_in_current`. -/
theorem verify_iface_step_absent_found
    (fieldVerify : Interface → Interface → Except NipartError Unit)
    (sriovVerify : EthernetInterface → Interfaces → Except NipartError Unit)
    (current : Interfaces) (iface cur_iface : Interface)
    (hbranch : (iface.is_absent || (iface.is_virtual && iface.is_down)) = true)
    (hfound : current.get_iface iface.name iface.iface_type = some cur_iface) :
    verify_iface_step fieldVerify sriovVerify current iface =
      verify_desire_absent_but_found_in_current iface cur_iface := by
  unfold verify_iface_step
  rw [hbranch, if_pos rfl, hfound]

/-- C2: For every desired interface that is absent, or virtual and down,
and that is still found in the sanitized observed snapshot, the
per-interface verify step raises a `VerificationError` naming that
interface if and only if the observed counterpart is virtual; and verify
never raises for a physical interface desired Down — its field-level
comparison is skipped entirely because only up interfaces are compared
(the statement holds for every pluggable field-level and SR-IOV comparison
function). -/
theorem verify_absent_iff_virtual_physical_down_exempt
    (fieldVerify : Interface → Interface → Except NipartError Unit)
    (sriovVerify : EthernetInterface → Interfaces → Except NipartError Unit)
    (current : Interfaces) :
    (∀ iface cur_iface,
      (iface.is_absent = true ∨ (iface.is_virtual = true ∧ iface.is_down = true)) →
      current.get_iface iface.name iface.iface_type = some cur_iface →
      ((∃ e, verify_iface_step fieldVerify sriovVerify current iface = .error e
          ∧ e.kind = .VerificationError
          ∧ ∃ s1 s2, e.msg = s1 ++ iface.name ++ s2)
        ↔ cur_iface.is_virtual = true))
    ∧ (∀ iface, iface.is_virtual = false → iface.is_down = true →
        verify_iface_step fieldVerify sriovVerify current iface = .ok ()) := by
  constructor
  · intro iface cur_iface hcond hfound
    have hbranch : (iface.is_absent || (iface.is_virtual && iface.is_down)) = true := by
      rcases hcond with h | ⟨h1, h2⟩
      · simp [h]
      · simp [h1, h2]
    rw [verify_iface_step_absent_found fieldVerify sriovVerify current
      iface cur_iface hbranch hfound]
    unfold verify_desire_absent_but_found_in_current
    cases hv : cur_iface.is_virtual with
    | true =>
      rw [if_pos rfl]
      constructor
      · intro _; rfl
      · intro _
        exact ⟨_, rfl, rfl, "Absent/Down interface ",
          " still found in current state", rfl⟩
    | false =>
      rw [if_neg (by simp)]
      constructor
      · rintro ⟨e, he, _⟩; simp at he
      · intro h; simp at h
  · intro iface hnv hdown
    have habs : iface.is_absent = false := by
      unfold Interface.is_absent Interface.is_down at *
      cases h : iface.state <;> simp [h] at hdown ⊢
    have hup : iface.is_up = false := by
      unfold Interface.is_up Interface.is_down at *
      cases h : iface.state <;> simp [h] at hdown ⊢
    unfold verify_iface_step
    rw [habs, hnv, if_neg (by simp)]
    cases hfound : current.get_iface iface.name iface.iface_type with
    | some cur_iface => simp [hup]
    | none => simp [hup]

/-- Desired record: `br0`, virtual, requested Absent. -/
def br0DesiredAbsent : Interface :=
  .generic { BaseInterface.new "br0" .Bridge with state := .Absent }

/-- Observed record: `br0` still present. -/
def br0Observed : Interface := .generic (BaseInterface.new "br0" .Bridge)

/-- Desired record: `eth1`, physical, requested Down. -/
def eth1DesiredDown : Interface :=
  .ethernet { base := { BaseInterface.new "eth1" .Ethernet with state := .Down } }

/-- Observed record: `eth1` still administratively Up. -/
def eth1Observed : Interface := .ethernet { base := BaseInterface.new "eth1" .Ethernet }

/-- Observed snapshot for the C2 scenarios. -/
def c2Snapshot : Interfaces := { ifaces := [br0Observed, eth1Observed] }

/-- A field-level comparison that always fails, exercising that the
physical-down exemption holds regardless of the comparison function. -/
def alwaysFailVerify : Interface → Interface → Except NipartError Unit :=
  fun _ _ => .error { kind := .VerificationError, msg := "field mismatch" }

/-- An SR-IOV check that always fails. -/
def alwaysFailSriov : EthernetInterface → Interfaces → Except NipartError Unit :=
  fun _ _ => .error { kind := .VerificationError, msg := "sriov mismatch" }

/-- C2 witness: the spec's two §8 scenarios.  Virtual `br0` desired Absent
but still observed fails with an error naming `br0`; physical `eth1`
desired Down but observed Up passes even under an always-failing
field-level comparison. -/
theorem verify_absent_iff_virtual_physical_down_exempt_witness :
    ((∃ e, verify_iface_step alwaysFailVerify alwaysFailSriov c2Snapshot
          br0DesiredAbsent = .error e
        ∧ e.kind = .VerificationError
        ∧ ∃ s1 s2, e.msg = s1 ++ br0DesiredAbsent.name ++ s2)
      ↔ br0Observed.is_virtual = true)
    ∧ verify_iface_step alwaysFailVerify alwaysFailSriov c2Snapshot
        eth1DesiredDown = .ok () :=
  ⟨(verify_absent_iff_virtual_physical_down_exempt alwaysFailVerify
      alwaysFailSriov c2Snapshot).1 br0DesiredAbsent br0Observed
      (Or.inl (by decide)) (by decide),
   (verify_absent_iff_virtual_physical_down_exempt alwaysFailVerify
      alwaysFailSriov c2Snapshot).2 eth1DesiredDown (by decide) (by decide)⟩

/-- C3: For every `MergedInterface` with both a for-apply view and a prior
current view, if the computed revert candidate is structurally identical
as a serialized value to the applied for-apply value, `generate_revert`
returns `None`; otherwise it returns `Some` of that candidate. -/
theorem generate_revert_no_op_suppression
    (m : MergedInterface) (apply_iface cur_iface revert_iface : Interface)
    (h1 : m.for_apply = some apply_iface) (h2 : m.current = some cur_iface)
    (h3 : apply_iface.generate_revert cur_iface = .ok revert_iface) :
    m.generate_revert =
      .ok (if revert_iface.serialize == apply_iface.serialize then none
           else some revert_iface) := by
  unfold MergedInterface.generate_revert
  rw [h1, h2]
  simp only [h3]
  unfold is_no_op
  cases h : (revert_iface.serialize == apply_iface.serialize) <;> simp [h]

/-- A concrete applied record for the revert scenarios. -/
def revApplied : Interface :=
  .ethernet { base := { BaseInterface.new "eth0" .Ethernet with
                        mac_address := some "aa" } }

/-- The pre-apply current record, differing in the MAC field. -/
def revCurrent : Interface :=
  .ethernet { base := { BaseInterface.new "eth0" .Ethernet with
                        mac_address := some "bb" } }

/-- The revert candidate actually computed for the scenario: the identity
skeleton carrying the pre-apply MAC. -/
def revCandidate : Interface :=
  .ethernet { base := { BaseInterface.new "eth0" .Ethernet with
                        mac_address := some "bb" } }

/-- C3 witness: the no-op-suppression statement evaluated on the concrete
scenario (the candidate differs from the applied value, so it is
returned). -/
theorem generate_revert_no_op_suppression_witness :
    MergedInterface.generate_revert
        { for_apply := some revApplied, current := some revCurrent } =
      .ok (if revCandidate.serialize == revApplied.serialize then none
           else some revCandidate) :=
  generate_revert_no_op_suppression
    { for_apply := some revApplied, current := some revCurrent }
    revApplied revCurrent revCandidate rfl rfl (by rfl)

/-- C7: `generate_revert` on a `MergedInterface` returns `None` when there
is no for-apply view; and when there is a for-apply view but no prior
current view, it returns an interface carrying only the applied
interface's name and type with state set to `Absent`. -/
theorem generate_revert_trivial_cases (m : MergedInterface) :
    (m.for_apply = none → m.generate_revert = .ok none)
    ∧ (∀ apply_iface, m.for_apply = some apply_iface → m.current = none →
        ∃ r, m.generate_revert = .ok (some r)
          ∧ r = (apply_iface.clone_name_type_only).updBase
              (fun b => { b with state := .Absent })
          ∧ r.name = apply_iface.name
          ∧ r.iface_type = apply_iface.iface_type
          ∧ r.state = .Absent) := by
  constructor
  · intro h
    unfold MergedInterface.generate_revert
    rw [h]
  · intro apply_iface h1 h2
    refine ⟨_, ?_, rfl, ?_, ?_, ?_⟩
    · unfold MergedInterface.generate_revert
      rw [h1, h2]
    · unfold Interface.name
      rw [Interface.base_updBase]
      unfold Interface.clone_name_type_only
      rw [Interface.base_ofBase]
      rfl
    · unfold Interface.iface_type
      rw [Interface.base_updBase]
      unfold Interface.clone_name_type_only
      rw [Interface.base_ofBase]
      rfl
    · unfold Interface.state
      rw [Interface.base_updBase]

/-- C7 witness: both trivial cases evaluated concretely. -/
theorem generate_revert_trivial_cases_witness :
    (MergedInterface.generate_revert { current := some revCurrent } = .ok none)
    ∧ (∃ r, MergedInterface.generate_revert { for_apply := some revApplied }
          = .ok (some r)
        ∧ r = (revApplied.clone_name_type_only).updBase
            (fun b => { b with state := .Absent })
        ∧ r.name = revApplied.name
        ∧ r.iface_type = revApplied.iface_type
        ∧ r.state = .Absent) :=
  ⟨(generate_revert_trivial_cases { current := some revCurrent }).1 rfl,
   (generate_revert_trivial_cases { for_apply := some revApplied }).2
     revApplied rfl rfl⟩

/-- C8: Every merged interface processed by `gen_diff` that has no prior
current view yields the original desired interface verbatim (unchanged,
not a skeleton-plus-diff), and the collection-level `gen_diff` emits
exactly that record for it. -/
theorem gen_diff_no_current_verbatim (sanitize : Interface → Interface)
    (m : MergedInterface) (origin_des_iface des_iface : Interface)
    (h1 : m.desired = some origin_des_iface) (h2 : m.current = none)
    (h3 : m.for_apply = some des_iface) :
    gen_diff_entry sanitize m = .ok (some origin_des_iface)
    ∧ MergedInterfaces.gen_diff sanitize { ifaces := [m] }
        = .ok [origin_des_iface] := by
  have hentry : gen_diff_entry sanitize m = .ok (some origin_des_iface) := by
    unfold gen_diff_entry
    have hcond : m.is_desired = true ∧ m.desired ≠ m.current := by
      constructor
      · unfold MergedInterface.is_desired
        rw [h1]
        rfl
      · rw [h1, h2]
        simp
    rw [if_pos hcond, h3, h2, h1]
  refine ⟨hentry, ?_⟩
  unfold MergedInterfaces.gen_diff gen_diff_list
  rw [hentry]
  rfl

/-- C8 witness: a merged interface with desired `br0`, no current view and
a for-apply view; the emitted entry is the desired record verbatim. -/
theorem gen_diff_no_current_verbatim_witness :
    gen_diff_entry id { desired := some br0DesiredAbsent,
                        for_apply := some br0Observed }
      = .ok (some br0DesiredAbsent)
    ∧ MergedInterfaces.gen_diff id
        { ifaces := [{ desired := some br0DesiredAbsent,
                       for_apply := some br0Observed }] }
      = .ok [br0DesiredAbsent] :=
  gen_diff_no_current_verbatim id
    { desired := some br0DesiredAbsent, for_apply := some br0Observed }
    br0DesiredAbsent br0Observed rfl rfl rfl

/-- A desired-and-observed record that is unchanged (`desired = current`)
while its for-apply view differs. -/
def unchangedMerged : MergedInterface :=
  { desired := some br0Observed,
    current := some br0Observed,
    for_apply := some br0DesiredAbsent }

/-- C4 counterexample: a merged interface whose for-apply view differs
from its current view, yet `gen_diff` emits no entry for it — the filter
in the source compares `desired`, not `for_apply`, with `current`. -/
theorem gen_diff_filters_on_desired_counterexample :
    unchangedMerged.is_desired = true
    ∧ unchangedMerged.for_apply ≠ unchangedMerged.current
    ∧ gen_diff_entry id unchangedMerged = .ok none
    ∧ MergedInterfaces.gen_diff id { ifaces := [unchangedMerged] } = .ok [] := by
  refine ⟨rfl, by decide, rfl, rfl⟩

/-- C4 as amended: `gen_diff` produces no entry for a merged interface
whose **desired** view equals its current view; for a desired merged
interface whose desired view differs from its current view and that has
both a for-apply and a current view, it produces an entry exactly when the
serialized for-apply view differs from the serialized, sanitized current
view (and the skeleton-plus-diff overlay deserializes). -/
theorem gen_diff_entry_characterization (sanitize : Interface → Interface)
    (m : MergedInterface) :
    (m.desired = m.current → gen_diff_entry sanitize m = .ok none)
    ∧ (∀ des_iface cur0,
        m.is_desired = true → m.desired ≠ m.current →
        m.for_apply = some des_iface → m.current = some cur0 →
        (gen_diff_json_value des_iface.serialize (sanitize cur0).serialize = none →
          gen_diff_entry sanitize m = .ok none)
        ∧ (∀ diff_value new_iface,
            gen_diff_json_value des_iface.serialize (sanitize cur0).serialize
              = some diff_value →
            Interface.deserialize
                (merge_json_value (diffSkeleton des_iface).serialize diff_value)
              = some new_iface →
            gen_diff_entry sanitize m
              = .ok (some (new_iface.include_diff_context (sanitize cur0))))) := by
  constructor
  · intro h
    unfold gen_diff_entry
    rw [if_neg]
    intro hcond
    exact hcond.2 h
  · intro des_iface cur0 hdes hne happ hcur
    constructor
    · intro hdiff
      unfold gen_diff_entry
      rw [if_pos ⟨hdes, hne⟩, happ, hcur]
      simp only [hdiff]
    · intro diff_value new_iface hdiff hparse
      unfold gen_diff_entry
      rw [if_pos ⟨hdes, hne⟩, happ, hcur]
      simp only [hdiff, hparse]

/-- Merged record for the C4 witness: desired adds a MAC to `br0`. -/
def changedMerged : MergedInterface :=
  { desired := some (.generic { BaseInterface.new "br0" .Bridge with
                                mac_address := some "cc" }),
    current := some br0Observed,
    for_apply := some (.generic { BaseInterface.new "br0" .Bridge with
                                  mac_address := some "cc" }) }

/-- The entry `gen_diff` emits for `changedMerged`: identity skeleton plus
the changed MAC field. -/
def changedMergedEntry : Interface :=
  .generic { BaseInterface.new "br0" .Bridge with mac_address := some "cc" }

/-- C4 witness: the characterization applied to a concrete changed
interface, producing an entry. -/
theorem gen_diff_entry_characterization_witness :
    gen_diff_entry id changedMerged
      = .ok (some (changedMergedEntry.include_diff_context
          (id br0Observed))) :=
  ((gen_diff_entry_characterization id changedMerged).2
    (.generic { BaseInterface.new "br0" .Bridge with mac_address := some "cc" })
    br0Observed rfl (by decide) rfl rfl).2
    (.obj [("mac-address", .str "cc")]) changedMergedEntry (by rfl) (by rfl)

/-- C6 witness: the characterization instantiated on the two-PHY
snapshot. -/
theorem wifi_down_matches_iff_no_phy_associated_witness :
    is_trigger_matches wlan0DownEvent (.WifiDown "home") genericSavedIface
        twoPhySnapshot = true ↔
      ∀ w : WifiPhyInterface, Interface.wifiPhy w ∈ twoPhySnapshot.iter →
        w.ssid ≠ some "home" :=
  wifi_down_matches_iff_no_phy_associated.1 wlan0DownEvent "home"
    genericSavedIface twoPhySnapshot

/-- C9 witness: the amended characterization instantiated on the
absent-profile saved state. -/
theorem wifi_monitor_is_needed_iff_witness :
    wifi_monitor_is_needed savedAbsentProfileState = true ↔
      ∃ iface ∈ savedAbsentProfileState.ifaces.iter,
        iface.is_absent = false ∧
        ((∃ w, iface = .wifiCfg w ∧ w.ssid.isSome)
          ∨ (∃ t, iface.base.up_trigger = some t ∧ t.is_wifi)
          ∨ (∃ t, iface.base.down_trigger = some t ∧ t.is_wifi)) :=
  wifi_monitor_is_needed_iff savedAbsentProfileState

/-- C10 witness: the round trip evaluated on a concrete trigger. -/
theorem interface_trigger_serde_roundtrip_witness :
    InterfaceTrigger.deserialize (InterfaceTrigger.serialize (.WifiUp "home"))
      = .ok (.WifiUp "home") :=
  interface_trigger_serde_roundtrip (.WifiUp "home")
